import Mathlib

/-!
Verification development for a C solar-system simulator (`src/main.c`).

The embedding models the simulation core:
- `Body`, `Point`, `Planet` mirror the C structs (float fields become `ℝ`,
  the `trail`/`trailCount` realloc buffer becomes a `List Point`).
- `orbital_velocity`, `add_trail_point`, `update_physics` mirror the
  corresponding C functions.
- `setOrbitalVelocity`, `sunBody`, `initPlanets` mirror the setup code in
  `main` (lines 183-212).
- `physicsStep`, `drain`, `frame` mirror the fixed-step scheduler loop in
  `main` (lines 216-241); the time accumulator is modelled over `ℚ` so the
  loop is an executable well-founded recursion.
- `key_callback` mirrors the trail-toggle key handler (lines 113-126).
-/

namespace Solar

/-- Scaled gravitational constant, `#define G 6.67430e-3f` in the source. -/
def G : ℝ := 6.67430e-3

/-- Distance scale, `#define SCALE_DISTANCE 200.0f`. -/
def SCALE_DISTANCE : ℝ := 200

/-- Time speed-up factor, `#define TIME_MULTIPLIER 100.0f`. -/
def TIME_MULTIPLIER : ℝ := 100

/-- The C struct `Body`: position, velocity, mass, visual radius, color. -/
@[ext]
structure Body where
  x : ℝ
  y : ℝ
  vx : ℝ
  vy : ℝ
  mass : ℝ
  radius : ℝ
  r : ℝ
  g : ℝ
  b : ℝ

/-- The C struct `Point`: one recorded trail position. -/
@[ext]
structure Point where
  x : ℝ
  y : ℝ

/-- The C struct `Planet`: a body plus its trail history and visibility flag.
The C `Point *trail` / `int trailCount` pair is modelled as a `List Point`
(whose length is `trailCount`); the C `int showTrail` is modelled as `Bool`. -/
@[ext]
structure Planet where
  body : Body
  trail : List Point
  showTrail : Bool

/-- Function `orbital_velocity` from the source: circular orbital speed
`sqrtf(G * M / r)` for a planet at distance `r` from the sun. -/
noncomputable def orbital_velocity (M r : ℝ) : ℝ :=
  Real.sqrt (G * M / r)

/-- Function `add_trail_point` from the source: grow the trail buffer by one slot and
write the new position at index `trailCount`, i.e. append at the end. -/
def add_trail_point (p : Planet) (x y : ℝ) : Planet :=
  { p with trail := p.trail ++ [⟨x, y⟩] }

/-- Function `update_physics` from the source: one semi-implicit Euler step of the
planet under the gravity of the sun, skipped entirely when `distSq < 1.0f`. -/
noncomputable def update_physics (planet : Body) (sun : Body) (dt : ℝ) : Body :=
  let dx := sun.x - planet.x
  let dy := sun.y - planet.y
  let distSq := dx * dx + dy * dy
  if distSq < 1 then planet
  else
    let dist := Real.sqrt distSq
    let accel := (G * sun.mass) / distSq
    let ax := accel * (dx / dist)
    let ay := accel * (dy / dist)
    let vx2 := planet.vx + ax * dt
    let vy2 := planet.vy + ay * dt
    { planet with
      vx := vx2
      vy := vy2
      x := planet.x + vx2 * dt
      y := planet.y + vy2 * dt }

/-- The per-planet body of the velocity-initialization loop in `main`
(lines 204-212): measure the actual distance `r` to the origin and assign a
purely vertical velocity `(0, orbital_velocity M r)`. -/
noncomputable def setOrbitalVelocity (M : ℝ) (b : Body) : Body :=
  let r := Real.sqrt (b.x * b.x + b.y * b.y)
  let v := orbital_velocity M r
  { b with vx := 0, vy := v }

/-- The sun, `Body sun = {0, 0, 0, 0, 1.989e6f, 30, 1.0f, 1.0f, 0.0f}`. -/
def sunBody : Body :=
  { x := 0, y := 0, vx := 0, vy := 0, mass := 1.989e6, radius := 30,
    r := 1, g := 1, b := 0 }

/-- The planet array from `main` (lines 185-201), before the
orbital-velocity initialization loop runs. -/
def initPlanets : List Planet :=
  [ { body := { x := 0.39 * SCALE_DISTANCE, y := 0, vx := 0, vy := 0,
                mass := 0.330 * 1e3, radius := 5, r := 0.5, g := 0.5, b := 0.5 },
      trail := [], showTrail := true },
    { body := { x := 0.72 * SCALE_DISTANCE, y := 0, vx := 0, vy := 0,
                mass := 4.87 * 1e3, radius := 7, r := 1, g := 0.7, b := 0 },
      trail := [], showTrail := true },
    { body := { x := 1.0 * SCALE_DISTANCE, y := 0, vx := 0, vy := 0,
                mass := 5.972 * 1e3, radius := 10, r := 0, g := 0, b := 1 },
      trail := [], showTrail := true },
    { body := { x := 1.52 * SCALE_DISTANCE, y := 0, vx := 0, vy := 0,
                mass := 0.642 * 1e3, radius := 8, r := 1, g := 0, b := 0 },
      trail := [], showTrail := true },
    { body := { x := 5.20 * SCALE_DISTANCE, y := 0, vx := 0, vy := 0,
                mass := 1898.0 * 1e3, radius := 20, r := 1, g := 0.5, b := 0 },
      trail := [], showTrail := true },
    { body := { x := 9.58 * SCALE_DISTANCE, y := 0, vx := 0, vy := 0,
                mass := 568.0 * 1e3, radius := 17, r := 1, g := 1, b := 0.5 },
      trail := [], showTrail := true },
    { body := { x := 19.20 * SCALE_DISTANCE, y := 0, vx := 0, vy := 0,
                mass := 86.8 * 1e3, radius := 15, r := 0.5, g := 1, b := 1 },
      trail := [], showTrail := true },
    { body := { x := 30.05 * SCALE_DISTANCE, y := 0, vx := 0, vy := 0,
                mass := 102.0 * 1e3, radius := 15, r := 0, g := 0, b := 0.5 },
      trail := [], showTrail := true } ]

/-- The planets after the orbital-velocity initialization loop in `main`. -/
noncomputable def initializedPlanets : List Planet :=
  initPlanets.map fun p => { p with body := setOrbitalVelocity sunBody.mass p.body }

/-- One iteration of the inner physics loop in `main` (lines 233-237): for
every planet, integrate its body with `update_physics` and then append the
new position to its trail. -/
noncomputable def physicsStep (sun : Body) (dt : ℝ) (ps : List Planet) : List Planet :=
  ps.map fun p =>
    let b := update_physics p.body sun dt
    add_trail_point { p with body := b } b.x b.y

/-- Fixed timestep, `const float fixedDt = 0.001f` from `main`. The accumulator arithmetic is
modelled over `ℚ`, so the drain loop below is executable. -/
def fixedDt : ℚ := 1 / 1000

/-- Result of draining the accumulator: final simulation state, final
accumulator value, and how many fixed physics steps ran. -/
structure DrainResult (σ : Type) where
  state : σ
  acc : ℚ
  steps : ℕ

/-- The drain loop `while (accumulator >= fixedDt) { step; accumulator -=
fixedDt; }` from `main` (lines 231-239), generic in the per-step state
transformer `step`. -/
def drain {σ : Type} (step : σ → σ) (st : σ) (acc : ℚ) : DrainResult σ :=
  if h : fixedDt ≤ acc then
    let r := drain step (step st) (acc - fixedDt)
    ⟨r.state, r.acc, r.steps + 1⟩
  else
    ⟨st, acc, 0⟩
termination_by (⌊acc * 1000⌋).toNat
decreasing_by
  have h1 : (1 : ℚ) ≤ acc * 1000 := by
    have := mul_le_mul_of_nonneg_right h (by norm_num : (0 : ℚ) ≤ 1000)
    simpa [fixedDt] using this
  have h2 : ((acc - fixedDt) * 1000 : ℚ) = acc * 1000 - 1 := by
    simp [fixedDt, sub_mul]
  have h3 : ⌊(acc - fixedDt) * 1000⌋ = ⌊acc * 1000⌋ - 1 := by
    rw [h2]
    exact_mod_cast Int.floor_sub_int (acc * 1000) 1
  have h4 : (1 : ℤ) ≤ ⌊acc * 1000⌋ := by
    exact_mod_cast Int.le_floor.mpr (by exact_mod_cast h1)
  rw [h3]
  omega

/-- The per-frame elapsed-time clamp from `main` (lines 226-227):
`if (frameTime > 0.1f) frameTime = 0.1f`. -/
def clampFrameTime (ft : ℚ) : ℚ :=
  if ft > 1 / 10 then 1 / 10 else ft

/-- One scheduler frame from `main` (lines 222-239): clamp the elapsed frame
time, add it to the accumulator, then drain in fixed steps. -/
def frame {σ : Type} (step : σ → σ) (st : σ) (acc ft : ℚ) : DrainResult σ :=
  drain step st (acc + clampFrameTime ft)

/-- The state transformer actually used by the drain loop of `main`: each physics
step advances every body by the effective simulated timestep
`fixedDt * TIME_MULTIPLIER` (line 235). -/
noncomputable def mainStep : List Planet → List Planet :=
  physicsStep sunBody (((fixedDt : ℚ) : ℝ) * TIME_MULTIPLIER)

/-- Drain loop of `main` instantiated with its actual step function. -/
noncomputable def mainDrain (ps : List Planet) (acc : ℚ) : DrainResult (List Planet) :=
  drain mainStep ps acc

/-- The UI state touched by the key handler: the static `trailsOn` flag plus
the planet array reachable through the window user pointer. -/
structure SimUI where
  trailsOn : Bool
  planets : List Planet

/-- Function `key_callback` from the source: on a press of the T key, flip the static
`trailsOn` flag and assign the new value to the `showTrail` flag of every planet;
any other key or action leaves everything unchanged. `pressT` stands for
`action == GLFW_PRESS && key == GLFW_KEY_T`. -/
def key_callback (pressT : Bool) (s : SimUI) : SimUI :=
  if pressT then
    let t := !s.trailsOn
    ⟨t, s.planets.map fun p => { p with showTrail := t }⟩
  else s

/-- Guard under which `render_trail` draws: only when the flag is set and at least two points
exist; modelled as the guard condition of the early return (lines 55-56). -/
def render_trail_draws (p : Planet) : Bool :=
  p.showTrail && decide (2 ≤ p.trail.length)

/-- Modelled from the spec (section 4.1): the orbital initializer as the spec
demands it, with the `r > 0` constraint enforced by failing fast — `none` —
when `r = 0`. The C source has no such check; this definition exists only to
compare the `orbital_velocity` of the source against the contract of the spec. -/
noncomputable def orbital_velocity_checked (M r : ℝ) : Option ℝ :=
  if r = 0 then none else some (Real.sqrt (G * M / r))

/-- Repeated trail appends, used to state the `k`-fold append property. -/
def appendAll (p : Planet) (pts : List Point) : Planet :=
  pts.foldl (fun q pt => add_trail_point q pt.x pt.y) p

/-- The simulation-relevant view of a planet: its body and its trail, with
the visibility flag erased. -/
def simView (p : Planet) : Body × List Point := (p.body, p.trail)

/-- Number of fixed steps the drain loop runs for a given starting
accumulator value (independent of the simulation state). -/
def drainSteps (acc : ℚ) : ℕ :=
  (drain (fun u : Unit => u) () acc).steps

/-- Final accumulator value after the drain loop, for a given starting
accumulator value (independent of the simulation state). -/
def drainRem (acc : ℚ) : ℚ :=
  (drain (fun u : Unit => u) () acc).acc

/-- A sample planet with an empty trail, used to instantiate theorems with
hypotheses at concrete inputs. -/
def samplePlanet : Planet :=
  { body := { x := 2, y := 0, vx := 0, vy := 0, mass := 1, radius := 1,
              r := 1, g := 1, b := 1 },
    trail := [], showTrail := true }

/-- The same planet with its trail hidden, used for the noninterference
instantiation. -/
def samplePlanetHidden : Planet :=
  { samplePlanet with showTrail := false }

/-- A body closer than the stability floor to the sun (`distSq = 1/4 < 1`),
used to instantiate the skip-policy theorem. -/
noncomputable def nearBody : Body :=
  { x := 1/2, y := 0, vx := 3, vy := 4, mass := 1, radius := 1,
    r := 1, g := 1, b := 1 }

section TrailTheorems

/-- Helper: `appendAll` concatenates the given points onto the trail and
touches nothing else. -/
theorem appendAll_spec (pts : List Point) : ∀ p : Planet,
    (appendAll p pts).trail = p.trail ++ pts ∧
    (appendAll p pts).body = p.body ∧
    (appendAll p pts).showTrail = p.showTrail := by
  induction pts with
  | nil => intro p; simp [appendAll]
  | cons pt pts ih =>
    intro p
    have h := ih (add_trail_point p pt.x pt.y)
    simpa [appendAll, add_trail_point, List.foldl_cons] using h

/-- C6: trail append is exact and strictly size-increasing: a single
`add_trail_point` call extends the trail by exactly one entry at its logical
end, previously stored entries are kept in place unchanged, and `k` appends
starting from an empty history leave a history of length exactly `k`. -/
theorem trail_append_exact (p : Planet) (x y : ℝ) (pts : List Point) :
    (add_trail_point p x y).trail = p.trail ++ [⟨x, y⟩] ∧
    (add_trail_point p x y).body = p.body ∧
    (add_trail_point p x y).showTrail = p.showTrail ∧
    (appendAll p pts).trail = p.trail ++ pts ∧
    (p.trail = [] → (appendAll p pts).trail.length = pts.length) := by
  refine ⟨rfl, rfl, rfl, (appendAll_spec pts p).1, fun he => ?_⟩
  rw [(appendAll_spec pts p).1, he]
  simp

/-- Witness for C6: three appends onto an empty history yield exactly the
three points, in order, and a history of length 3. -/
theorem trail_append_exact_witness :
    (appendAll samplePlanet [⟨1, 2⟩, ⟨3, 4⟩, ⟨5, 6⟩]).trail.length = 3 :=
  (trail_append_exact samplePlanet 0 0 [⟨1, 2⟩, ⟨3, 4⟩, ⟨5, 6⟩]).2.2.2.2 rfl

end TrailTheorems

section ToggleTheorems

/-- C7: a T-key press sets the `showTrail` flag of every planet to the same value (the
flipped flag) and modifies nothing else; pressing twice restores the flag,
and both presses leave the body of every planet (position, velocity, mass,
radius, color) and stored trail history exactly unchanged; a non-T event is
a complete no-op. -/
theorem toggle_trails_visibility_only (s : SimUI) :
    (key_callback true s).planets =
      s.planets.map (fun p => { p with showTrail := !s.trailsOn }) ∧
    (key_callback true (key_callback true s)).planets =
      s.planets.map (fun p => { p with showTrail := s.trailsOn }) ∧
    (key_callback true s).planets.map Planet.body = s.planets.map Planet.body ∧
    (key_callback true s).planets.map Planet.trail = s.planets.map Planet.trail ∧
    (key_callback true (key_callback true s)).planets.map Planet.body =
      s.planets.map Planet.body ∧
    (key_callback true (key_callback true s)).planets.map Planet.trail =
      s.planets.map Planet.trail ∧
    key_callback false s = s := by
  refine ⟨rfl, ?_, ?_, ?_, ?_, ?_, rfl⟩ <;>
    simp [key_callback, Function.comp]

end ToggleTheorems

section IntegratorTheorems

/-- C3: when the squared distance to the sun is below the stability floor
(`distSq < 1.0`), `update_physics` is a complete no-op for that step:
position and velocity are left exactly unchanged. -/
theorem update_physics_skip_below_floor (planet sun : Body) (dt : ℝ)
    (h : (sun.x - planet.x) * (sun.x - planet.x) +
         (sun.y - planet.y) * (sun.y - planet.y) < 1) :
    update_physics planet sun dt = planet := by
  simp only [update_physics]
  rw [if_pos h]

/-- Witness for C3: `nearBody` sits at squared distance `1/4 < 1` from the
sun, and the step leaves it exactly unchanged. -/
theorem update_physics_skip_below_floor_witness :
    (sunBody.x - nearBody.x) * (sunBody.x - nearBody.x) +
      (sunBody.y - nearBody.y) * (sunBody.y - nearBody.y) < 1 ∧
    update_physics nearBody sunBody 5 = nearBody :=
  ⟨by norm_num [sunBody, nearBody],
   update_physics_skip_below_floor nearBody sunBody 5
     (by norm_num [sunBody, nearBody])⟩

/-- C9: a single integrator call with `dt = 0` is an identity: for every
body, at any position and velocity, position and velocity are unchanged. -/
theorem update_physics_dt_zero_identity (planet sun : Body) :
    update_physics planet sun 0 = planet := by
  simp only [update_physics]
  by_cases h : (sun.x - planet.x) * (sun.x - planet.x) +
      (sun.y - planet.y) * (sun.y - planet.y) < 1
  · rw [if_pos h]
  · rw [if_neg h]
    simp

/-- C1: above the stability floor, `update_physics` performs one
semi-implicit (symplectic) Euler step: acceleration of magnitude
`G * sunMass / distSq` along the unit vector from the body to the sun, the
velocity updated first, and the position then advanced with the
already-updated velocity (not the old one); mass, radius and color are
untouched. -/
theorem update_physics_semi_implicit (planet sun : Body) (dt : ℝ)
    (h : 1 ≤ (sun.x - planet.x) * (sun.x - planet.x) +
         (sun.y - planet.y) * (sun.y - planet.y)) :
    let dx := sun.x - planet.x
    let dy := sun.y - planet.y
    let distSq := dx * dx + dy * dy
    let dist := Real.sqrt distSq
    let a := G * sun.mass / distSq
    let p2 := update_physics planet sun dt
    p2.vx = planet.vx + a * (dx / dist) * dt ∧
    p2.vy = planet.vy + a * (dy / dist) * dt ∧
    p2.x = planet.x + p2.vx * dt ∧
    p2.y = planet.y + p2.vy * dt ∧
    p2.mass = planet.mass ∧ p2.radius = planet.radius ∧
    p2.r = planet.r ∧ p2.g = planet.g ∧ p2.b = planet.b := by
  simp only [update_physics]
  rw [if_neg (not_lt.mpr h)]
  exact ⟨rfl, rfl, rfl, rfl, rfl, rfl, rfl, rfl, rfl⟩

/-- Witness for C1: `samplePlanet.body` sits at squared distance 4 from the
sun, above the floor, and the symplectic step equations hold there. -/
theorem update_physics_semi_implicit_witness :
    (1 ≤ (sunBody.x - samplePlanet.body.x) * (sunBody.x - samplePlanet.body.x) +
         (sunBody.y - samplePlanet.body.y) * (sunBody.y - samplePlanet.body.y)) ∧
    (let dx := sunBody.x - samplePlanet.body.x
     let dy := sunBody.y - samplePlanet.body.y
     let distSq := dx * dx + dy * dy
     let dist := Real.sqrt distSq
     let a := G * sunBody.mass / distSq
     let p2 := update_physics samplePlanet.body sunBody 1
     p2.vx = samplePlanet.body.vx + a * (dx / dist) * 1 ∧
     p2.vy = samplePlanet.body.vy + a * (dy / dist) * 1 ∧
     p2.x = samplePlanet.body.x + p2.vx * 1 ∧
     p2.y = samplePlanet.body.y + p2.vy * 1 ∧
     p2.mass = samplePlanet.body.mass ∧ p2.radius = samplePlanet.body.radius ∧
     p2.r = samplePlanet.body.r ∧ p2.g = samplePlanet.body.g ∧
     p2.b = samplePlanet.body.b) :=
  ⟨by norm_num [sunBody, samplePlanet],
   update_physics_semi_implicit samplePlanet.body sunBody 1
     (by norm_num [sunBody, samplePlanet])⟩

end IntegratorTheorems

section SchedulerTheorems

/-- Helper: the drain loop leaves the accumulator in `[0, fixedDt)` whenever
it starts nonnegative. -/
theorem drain_acc_bounds {σ : Type} (step : σ → σ) (st : σ) (acc : ℚ)
    (h : 0 ≤ acc) :
    0 ≤ (drain step st acc).acc ∧ (drain step st acc).acc < fixedDt := by
  induction st, acc using drain.induct step with
  | case1 st acc hc ih =>
    rw [drain, dif_pos hc]
    exact ih (by simp [fixedDt] at hc ⊢; linarith)
  | case2 st acc hc =>
    rw [drain, dif_neg hc]
    exact ⟨h, by simpa [not_le] using hc⟩

/-- C2: a frame starting with an empty accumulator and elapsed time
`2.5 * fixedDt` drains exactly 2 physics steps, leaves the accumulator at
`fixedDt / 2` (inside `[0, fixedDt)`), applies the per-step state
transformer exactly twice, and that transformer advances every body by the
effective simulated timestep `fixedDt * TIME_MULTIPLIER` while only
`fixedDt` is subtracted from the accumulator per step. -/
theorem scheduler_drains_two_steps (ps : List Planet) :
    frame mainStep ps 0 (5 / 2 * fixedDt) =
      ⟨mainStep (mainStep ps), fixedDt / 2, 2⟩ ∧
    0 ≤ (fixedDt / 2 : ℚ) ∧ (fixedDt / 2 : ℚ) < fixedDt ∧
    mainStep = physicsStep sunBody (((fixedDt : ℚ) : ℝ) * TIME_MULTIPLIER) := by
  refine ⟨?_, by norm_num [fixedDt], by norm_num [fixedDt], rfl⟩
  have hc : (0 : ℚ) + clampFrameTime (5 / 2 * fixedDt) = 5 / 2 * fixedDt := by
    norm_num [clampFrameTime, fixedDt]
  rw [frame, hc]
  rw [drain, dif_pos (by norm_num [fixedDt]), drain, dif_pos (by norm_num [fixedDt]),
    drain, dif_neg (by norm_num [fixedDt])]
  simp only [DrainResult.mk.injEq]
  norm_num [fixedDt]

/-- C5: the accumulator invariant of the scheduler: starting a frame with a
nonnegative accumulator and a nonnegative (monotonic-clock) elapsed time,
after the drain loop returns control to rendering the accumulator is
nonnegative and strictly below one fixed step. -/
theorem scheduler_accumulator_invariant {σ : Type} (step : σ → σ) (st : σ)
    (acc ft : ℚ) (hacc : 0 ≤ acc) (hft : 0 ≤ ft) :
    0 ≤ (frame step st acc ft).acc ∧ (frame step st acc ft).acc < fixedDt := by
  rw [frame]
  refine drain_acc_bounds step st _ ?_
  have hcl : 0 ≤ clampFrameTime ft := by
    rw [clampFrameTime]
    split <;> [norm_num; exact hft]
  linarith

/-- Witness for C5: a frame with accumulator `1/500` and elapsed time
`3/1000` ends with the accumulator inside `[0, fixedDt)`. -/
theorem scheduler_accumulator_invariant_witness :
    ((0 : ℚ) ≤ 1 / 500 ∧ (0 : ℚ) ≤ 3 / 1000) ∧
    (0 ≤ (frame (fun u : Unit => u) () (1 / 500) (3 / 1000)).acc ∧
     (frame (fun u : Unit => u) () (1 / 500) (3 / 1000)).acc < fixedDt) :=
  ⟨⟨by norm_num, by norm_num⟩,
   scheduler_accumulator_invariant (fun u : Unit => u) () (1 / 500) (3 / 1000)
     (by norm_num) (by norm_num)⟩

end SchedulerTheorems

section NoninterferenceTheorems

/-- Helper: the drain loop runs one more step when the accumulator clears
the threshold. -/
theorem drainSteps_of_le (acc : ℚ) (h : fixedDt ≤ acc) :
    drainSteps acc = drainSteps (acc - fixedDt) + 1 := by
  simp only [drainSteps]
  rw [drain, dif_pos h]

/-- Helper: the remaining accumulator after draining is unchanged by the
first step. -/
theorem drainRem_of_le (acc : ℚ) (h : fixedDt ≤ acc) :
    drainRem acc = drainRem (acc - fixedDt) := by
  simp only [drainRem]
  rw [drain, dif_pos h]

/-- Helper: the drain loop equals iterating the step function a number of
times that depends only on the accumulator, with the remainder likewise
depending only on the accumulator. -/
theorem drain_eq_iterate {σ : Type} (step : σ → σ) (st : σ) (acc : ℚ) :
    drain step st acc = ⟨step^[drainSteps acc] st, drainRem acc, drainSteps acc⟩ := by
  induction st, acc using drain.induct step with
  | case1 st acc hc ih =>
    rw [drain, dif_pos hc, ih, drainSteps_of_le acc hc, drainRem_of_le acc hc,
      Function.iterate_succ_apply]
  | case2 st acc hc =>
    rw [drain, dif_neg hc]
    have hs : drainSteps acc = 0 := by
      simp only [drainSteps]
      rw [drain, dif_neg hc]
    have hr : drainRem acc = acc := by
      simp only [drainRem]
      rw [drain, dif_neg hc]
    rw [hs, hr, Function.iterate_zero_apply]

/-- Helper: one physics step, seen through `simView`, is a map on the
simulation-relevant data alone — the `showTrail` flag feeds nowhere into it. -/
theorem physicsStep_simView (sun : Body) (dt : ℝ) (rs : List Planet) :
    (physicsStep sun dt rs).map simView =
      (rs.map simView).map fun bt =>
        (update_physics bt.1 sun dt,
         bt.2 ++ [⟨(update_physics bt.1 sun dt).x, (update_physics bt.1 sun dt).y⟩]) := by
  simp only [physicsStep, List.map_map]
  rfl

/-- Helper: one physics step preserves equality of the `simView` projection
between two runs. -/
theorem physicsStep_noninterference (sun : Body) (dt : ℝ) (ps qs : List Planet)
    (h : ps.map simView = qs.map simView) :
    (physicsStep sun dt ps).map simView = (physicsStep sun dt qs).map simView := by
  rw [physicsStep_simView, physicsStep_simView, h]

/-- Helper: iterating the physics step preserves equality of the `simView`
projection. -/
theorem iterate_physicsStep_noninterference (sun : Body) (dt : ℝ) (n : ℕ) :
    ∀ ps qs : List Planet, ps.map simView = qs.map simView →
      ((physicsStep sun dt)^[n] ps).map simView =
        ((physicsStep sun dt)^[n] qs).map simView := by
  induction n with
  | zero => intro ps qs h; simpa using h
  | succ n ih =>
    intro ps qs h
    rw [Function.iterate_succ_apply, Function.iterate_succ_apply]
    exact ih _ _ (physicsStep_noninterference sun dt ps qs h)

/-- C10: the trail-visibility flag does not interfere with simulation-state
evolution: each physics step appends exactly one point to the trail of
every planet regardless of its `showTrail` flag, the step never changes the flags
themselves, and two runs of the drain loop whose states agree on bodies and
trails but may differ arbitrarily in `showTrail` values stay equal on
bodies and trails (positions, velocities and trail contents). -/
theorem showTrail_noninterference (sun : Body) (dt : ℝ) (ps qs : List Planet)
    (acc : ℚ) (h : ps.map simView = qs.map simView) :
    (physicsStep sun dt ps).map (fun p => p.trail.length) =
      ps.map (fun p => p.trail.length + 1) ∧
    (physicsStep sun dt ps).map Planet.showTrail = ps.map Planet.showTrail ∧
    (physicsStep sun dt ps).map simView = (physicsStep sun dt qs).map simView ∧
    ((drain (physicsStep sun dt) ps acc).state).map simView =
      ((drain (physicsStep sun dt) qs acc).state).map simView := by
  refine ⟨?_, ?_, physicsStep_noninterference sun dt ps qs h, ?_⟩
  · simp [physicsStep, add_trail_point, List.map_map]
  · simp only [physicsStep, List.map_map]
    exact List.map_congr_left fun a _ => rfl
  · rw [drain_eq_iterate, drain_eq_iterate]
    exact iterate_physicsStep_noninterference sun dt (drainSteps acc) ps qs h

/-- Witness for C10: two singleton runs differing only in `showTrail` agree
on bodies and trails; one step appends one point, flags are preserved, and
the drained runs stay equal on the simulation-relevant state. -/
theorem showTrail_noninterference_witness :
    ([samplePlanet].map simView = [samplePlanetHidden].map simView) ∧
    ((physicsStep sunBody 1 [samplePlanet]).map (fun p => p.trail.length) =
       [samplePlanet].map (fun p => p.trail.length + 1) ∧
     (physicsStep sunBody 1 [samplePlanet]).map Planet.showTrail =
       [samplePlanet].map Planet.showTrail ∧
     (physicsStep sunBody 1 [samplePlanet]).map simView =
       (physicsStep sunBody 1 [samplePlanetHidden]).map simView ∧
     ((drain (physicsStep sunBody 1) [samplePlanet] (3 / 2000)).state).map simView =
       ((drain (physicsStep sunBody 1) [samplePlanetHidden] (3 / 2000)).state).map simView) :=
  ⟨rfl, showTrail_noninterference sunBody 1 [samplePlanet] [samplePlanetHidden]
    (3 / 2000) rfl⟩

end NoninterferenceTheorems

section OrbitalInitTheorems

/-- Helper: the gravitational constant is positive. -/
theorem G_pos : 0 < G := by norm_num [G]

/-- Helper: the orbital-velocity initialization of a body lying on the
positive x-axis yields the stated circular-orbit data: positive radius,
purely vertical (tangential, counter-clockwise) velocity of speed
`sqrt(G * M / r)`. -/
theorem setOrbitalVelocity_on_axis (M : ℝ) (hM : 0 < M) (b : Body)
    (hx : 0 < b.x) (hy : b.y = 0) :
    let b2 := setOrbitalVelocity M b
    let r := Real.sqrt (b2.x * b2.x + b2.y * b2.y)
    0 < r ∧
    b2.vx = 0 ∧
    b2.vy = orbital_velocity M r ∧
    Real.sqrt (b2.vx * b2.vx + b2.vy * b2.vy) = Real.sqrt (G * M / r) ∧
    b2.x * b2.vx + b2.y * b2.vy = 0 ∧
    0 < b2.x * b2.vy - b2.y * b2.vx := by
  intro b2 r
  have hb2x : b2.x = b.x := rfl
  have hb2y : b2.y = b.y := rfl
  have hr : r = b.x := by
    show Real.sqrt (b.x * b.x + b.y * b.y) = b.x
    rw [hy, mul_zero, add_zero]
    exact Real.sqrt_mul_self hx.le
  have hvx : b2.vx = 0 := rfl
  have hvy : b2.vy = orbital_velocity M r := rfl
  have hvy_nonneg : 0 ≤ b2.vy := Real.sqrt_nonneg _
  have hvy_pos : 0 < b2.vy := by
    rw [hvy, orbital_velocity]
    exact Real.sqrt_pos.mpr (div_pos (mul_pos G_pos hM) (hr ▸ hx))
  refine ⟨hr ▸ hx, hvx, hvy, ?_, ?_, ?_⟩
  · rw [hvx, mul_zero, zero_add, Real.sqrt_mul_self hvy_nonneg, hvy,
      orbital_velocity]
  · rw [hvx, hb2y, hy, mul_zero, zero_mul, add_zero]
  · rw [hvx, hb2y, hy, zero_mul, sub_zero, hb2x]
    exact mul_pos hx hvy_pos

/-- C4: every planet of the program starts at a positive radial distance
`r` from the sun, and the orbital initializer assigns it velocity `(0, v)`
with `v = sqrt(G * M / r)` exactly: a speed of `sqrt(G * M / r)`,
perpendicular to the position vector, oriented counter-clockwise (positive
cross product `x * vy - y * vx`); and at `M = 1.989e6`, `r = 200` (the
third planet) the speed is within `1/100` of `8.145`. -/
theorem orbital_init_circular (p : Planet) (hp : p ∈ initializedPlanets) :
    let b2 := p.body
    let r := Real.sqrt (b2.x * b2.x + b2.y * b2.y)
    (0 < r ∧
     b2.vx = 0 ∧
     b2.vy = orbital_velocity sunBody.mass r ∧
     Real.sqrt (b2.vx * b2.vx + b2.vy * b2.vy) =
       Real.sqrt (G * sunBody.mass / r) ∧
     b2.x * b2.vx + b2.y * b2.vy = 0 ∧
     0 < b2.x * b2.vy - b2.y * b2.vx) ∧
    |orbital_velocity sunBody.mass 200 - 8.145| < 1 / 100 := by
  have hM : (0 : ℝ) < sunBody.mass := by norm_num [sunBody]
  have happrox : |orbital_velocity sunBody.mass 200 - 8.145| < 1 / 100 := by
    rw [orbital_velocity,
      show (G * sunBody.mass / 200 : ℝ) = 66.3759135 by norm_num [G, sunBody]]
    rw [abs_sub_lt_iff]
    constructor
    · have h1 : Real.sqrt 66.3759135 < 8.15 :=
        (Real.sqrt_lt' (by norm_num)).mpr (by norm_num)
      linarith
    · have h2 : (8.14 : ℝ) < Real.sqrt 66.3759135 :=
        (Real.lt_sqrt (by norm_num)).mpr (by norm_num)
      linarith
  simp only [initializedPlanets, initPlanets, List.map_cons, List.map_nil,
    List.mem_cons, List.not_mem_nil, or_false] at hp
  rcases hp with rfl | rfl | rfl | rfl | rfl | rfl | rfl | rfl <;>
    exact ⟨setOrbitalVelocity_on_axis sunBody.mass hM _
      (by norm_num [SCALE_DISTANCE]) rfl, happrox⟩

/-- Witness for C4: the third planet of the program (initial distance 200)
satisfies the circular-orbit initialization properties. -/
theorem orbital_init_circular_witness :
    (let b2 := (initializedPlanets.get
        ⟨2, by simp [initializedPlanets, initPlanets]⟩).body
     let r := Real.sqrt (b2.x * b2.x + b2.y * b2.y)
     (0 < r ∧
      b2.vx = 0 ∧
      b2.vy = orbital_velocity sunBody.mass r ∧
      Real.sqrt (b2.vx * b2.vx + b2.vy * b2.vy) =
        Real.sqrt (G * sunBody.mass / r) ∧
      b2.x * b2.vx + b2.y * b2.vy = 0 ∧
      0 < b2.x * b2.vy - b2.y * b2.vx) ∧
     |orbital_velocity sunBody.mass 200 - 8.145| < 1 / 100) :=
  orbital_init_circular _ (initializedPlanets.get_mem _ _)

end OrbitalInitTheorems

section FailFastTheorems

/-- Counterexample for C8: at `r = 0` the checked operation of the spec fails
(`none`), but the `orbital_velocity` of the source has no `r > 0` check at all:
it is a total straight-line function that still produces a value —
unconditionally `sqrt(G * M / r)` — rather than failing fast. -/
theorem orbital_velocity_no_fail_fast :
    orbital_velocity_checked sunBody.mass 0 = none ∧
    orbital_velocity sunBody.mass 0 = Real.sqrt (G * sunBody.mass / 0) ∧
    ∃ v : ℝ, orbital_velocity sunBody.mass 0 = v := by
  refine ⟨?_, rfl, orbital_velocity sunBody.mass 0, rfl⟩
  rw [orbital_velocity_checked, if_pos rfl]

/-- C8 (amended): the initializer performs no `r = 0` check and never fails;
it agrees with the checked operation of the spec at every `r ≠ 0`, and the
program establishes the precondition `r > 0` at every call site: each
initial radial distance of each planet is positive. -/
theorem orbital_velocity_total_with_positive_callers (M r : ℝ) (hr : r ≠ 0) :
    orbital_velocity_checked M r = some (orbital_velocity M r) ∧
    ∀ p ∈ initPlanets,
      0 < Real.sqrt (p.body.x * p.body.x + p.body.y * p.body.y) := by
  constructor
  · rw [orbital_velocity_checked, if_neg hr, orbital_velocity]
  · intro p hp
    simp only [initPlanets, List.mem_cons, List.not_mem_nil, or_false] at hp
    rcases hp with rfl | rfl | rfl | rfl | rfl | rfl | rfl | rfl <;>
      exact Real.sqrt_pos.mpr (by norm_num [SCALE_DISTANCE])

/-- Witness for C8 (amended): at `r = 200` the checked operation agrees with
the source function, and the initial radial distance of the first planet is
positive. -/
theorem orbital_velocity_total_with_positive_callers_witness :
    orbital_velocity_checked sunBody.mass 200 = some (orbital_velocity sunBody.mass 200) ∧
    0 < Real.sqrt ((initPlanets.get ⟨0, by simp [initPlanets]⟩).body.x *
        (initPlanets.get ⟨0, by simp [initPlanets]⟩).body.x +
        (initPlanets.get ⟨0, by simp [initPlanets]⟩).body.y *
        (initPlanets.get ⟨0, by simp [initPlanets]⟩).body.y) :=
  ⟨(orbital_velocity_total_with_positive_callers sunBody.mass 200 (by norm_num)).1,
   (orbital_velocity_total_with_positive_callers sunBody.mass 200 (by norm_num)).2 _
     (initPlanets.get_mem _ _)⟩

end FailFastTheorems

end Solar
